import Mathlib

/-!
Shallow embedding of `homework.py`, a fitness-tracker calculator with three
activity variants (Running, SportsWalking, Swimming), a factory
(`read_package`) dispatching on a three-letter activity code, and a message
formatter (`InfoMessage.get_message`).

Python floats are modelled as exact rationals (`ℚ`); all arithmetic in the
source is closed-form and the claims do not hinge on binary rounding.
Python exceptions are modelled as `Option`/`Except`:
`ZeroDivisionError` inside a formula becomes `none`, the factory's failure
paths become `Except.error` (the uncaught `KeyError`-then-`ValueError` path
for an unknown code, and the uncaught `TypeError` for a constructor call of
the wrong arity).
-/

/-- `Training.M_IN_KM` from the source. -/
def M_IN_KM : ℚ := 1000

/-- `Training.MINUTES_IN_HOUR` from the source. -/
def MINUTES_IN_HOUR : ℚ := 60

/-- `Running.RATE_CALORIE_RUN_LEFT` from the source. -/
def RATE_CALORIE_RUN_LEFT : ℚ := 18

/-- `Running.RATE_CALORIE_RUN_RIGHT` from the source. -/
def RATE_CALORIE_RUN_RIGHT : ℚ := 20

/-- `SportsWalking.RATE_CALORIE_WALK_LEFT` from the source. -/
def RATE_CALORIE_WALK_LEFT : ℚ := 0.035

/-- `SportsWalking.RATE_CALORIE_WALK_RIGHT` from the source. -/
def RATE_CALORIE_WALK_RIGHT : ℚ := 0.029

/-- `Swimming.RATE_CALORIE_SWIM_LEFT` from the source. -/
def RATE_CALORIE_SWIM_LEFT : ℚ := 1.1

/-- `Swimming.RATE_CALORIE_SWIM_RIGHT` from the source. -/
def RATE_CALORIE_SWIM_RIGHT : ℚ := 2

/-- The three training variants of the source, with the fields their
`__init__` methods store: `Running` the base three (`action`, `duration`,
`weight`), `SportsWalking` adds `height`, `Swimming` adds `length_pool`
and `count_pool`. -/
inductive Training where
  | running (action duration weight : ℚ)
  | sportsWalking (action duration weight height : ℚ)
  | swimming (action duration weight length_pool count_pool : ℚ)
deriving DecidableEq, Repr

/-- Attribute lookup `self.action`. -/
def Training.action : Training → ℚ
  | .running a _ _ => a
  | .sportsWalking a _ _ _ => a
  | .swimming a _ _ _ _ => a

/-- Attribute lookup `self.duration`. -/
def Training.duration : Training → ℚ
  | .running _ d _ => d
  | .sportsWalking _ d _ _ => d
  | .swimming _ d _ _ _ => d

/-- Attribute lookup `self.weight`. -/
def Training.weight : Training → ℚ
  | .running _ _ w => w
  | .sportsWalking _ _ w _ => w
  | .swimming _ _ w _ _ => w

/-- Attribute lookup `self.LEN_STEP`: the class attribute is `0.65` on
`Training` and is overridden to `1.38` on `Swimming`. -/
def Training.LEN_STEP : Training → ℚ
  | .swimming _ _ _ _ _ => 1.38
  | _ => 0.65

/-- `self.__class__.__name__`, used as the activity label. -/
def Training.className : Training → String
  | .running _ _ _ => "Running"
  | .sportsWalking _ _ _ _ => "SportsWalking"
  | .swimming _ _ _ _ _ => "Swimming"

/-- `Training.get_distance` (and the textually identical override
`Swimming.get_distance`): `self.action * self.LEN_STEP / self.M_IN_KM`. -/
def Training.get_distance (t : Training) : ℚ :=
  t.action * t.LEN_STEP / M_IN_KM

/-- `get_mean_speed`: the base method is
`self.get_distance() / self.duration`, overridden for `Swimming` to
`self.length_pool * self.count_pool / self.M_IN_KM / self.duration`.
A zero duration raises `ZeroDivisionError` in Python, modelled as `none`. -/
def Training.get_mean_speed : Training → Option ℚ
  | .swimming _ d _ l c =>
      if d = 0 then none else some (l * c / M_IN_KM / d)
  | t =>
      if t.duration = 0 then none else some (t.get_distance / t.duration)

/-- `get_spent_calories` for each variant, exactly as in the source:
Running: `(18 * speed - 20) * weight / M_IN_KM * duration * 60`;
SportsWalking: `speed ** 2 // height * 0.029 * weight
  + 0.035 * weight * duration * 60` (Python float floor division, which
raises `ZeroDivisionError` when `height == 0`, modelled as `none`);
Swimming: `(speed + 1.1) * 2 * weight`. -/
def Training.get_spent_calories : Training → Option ℚ
  | .running a d w =>
      (Training.running a d w).get_mean_speed.map fun s =>
        (RATE_CALORIE_RUN_LEFT * s - RATE_CALORIE_RUN_RIGHT)
          * w / M_IN_KM * d * MINUTES_IN_HOUR
  | .sportsWalking a d w h =>
      (Training.sportsWalking a d w h).get_mean_speed.bind fun s =>
        if h = 0 then none
        else some ((⌊s ^ 2 / h⌋ : ℚ) * RATE_CALORIE_WALK_RIGHT * w
          + RATE_CALORIE_WALK_LEFT * w * d * MINUTES_IN_HOUR)
  | .swimming a d w l c =>
      (Training.swimming a d w l c).get_mean_speed.map fun s =>
        (s + RATE_CALORIE_SWIM_LEFT) * RATE_CALORIE_SWIM_RIGHT * w

/-- The summary record produced by `show_training_info` and consumed by
the formatter (the `InfoMessage` dataclass of the source). -/
structure InfoMessage where
  training_type : String
  duration : ℚ
  distance : ℚ
  speed : ℚ
  calories : ℚ
deriving DecidableEq, Repr

/-- `Training.show_training_info`: builds an `InfoMessage` from the class
name, the stored duration, and the three computed quantities.  Any raise
inside speed or calorie computation aborts the construction (`none`). -/
def Training.show_training_info (t : Training) : Option InfoMessage :=
  match t.get_mean_speed, t.get_spent_calories with
  | some s, some c =>
      some { training_type := t.className, duration := t.duration,
             distance := t.get_distance, speed := s, calories := c }
  | _, _ => none

/-- The error outcomes of `read_package`: an unknown activity code ends in
the raised `ValueError` (the spec's `InvalidActivityCode`); a parameter
list of the wrong length makes the constructor call raise `TypeError`
(the spec's `InvalidParameterCount`). -/
inductive FactoryError where
  | invalidActivityCode
  | invalidParameterCount
deriving DecidableEq, Repr

/-- `read_package`: looks the code up in the dictionary
`{SWM: Swimming, RUN: Running, WLK: SportsWalking}` and calls the resolved
class with the unpacked parameter list.  A missing key is caught and
re-raised as `ValueError`; a list whose length differs from the
constructor's arity (3 / 4 / 5) raises `TypeError` at the call, before any
field is stored. -/
def read_package (workout_type : String) (data : List ℚ) :
    Except FactoryError Training :=
  if workout_type = "SWM" then
    match data with
    | [a, d, w, l, c] => .ok (.swimming a d w l c)
    | _ => .error .invalidParameterCount
  else if workout_type = "RUN" then
    match data with
    | [a, d, w] => .ok (.running a d w)
    | _ => .error .invalidParameterCount
  else if workout_type = "WLK" then
    match data with
    | [a, d, w, h] => .ok (.sportsWalking a d w h)
    | _ => .error .invalidParameterCount
  else .error .invalidActivityCode

/-- The character for the decimal digit `n % 10`. -/
def digitChar (n : ℕ) : Char := Char.ofNat (48 + n % 10)

/-- Zero-padded three-digit rendering of `n < 1000`, as Python's `format`
produces for the fractional part of a `.3f` conversion. -/
def pad3 (n : ℕ) : String :=
  String.mk [digitChar (n / 100), digitChar (n / 10), digitChar n]

/-- The magnitude of `q` rounded to a whole number of thousandths, computed
on the reduced numerator and denominator:
`(2000 * |num| + den) / (2 * den) = ⌊1000 * |q| + 1/2⌋`
(see `fix3Thousandths_eq_round` below). -/
def fix3Thousandths (q : ℚ) : ℕ :=
  (2000 * q.num.natAbs + q.den) / (2 * q.den)

/-- Python's `{:.3f}` conversion on the exact rational value: round the
magnitude to a whole number of thousandths, then print
sign, integer part, `.`, and exactly three fractional digits. -/
def formatFix3 (q : ℚ) : String :=
  (if q.num < 0 then "-" else "")
    ++ toString (fix3Thousandths q / 1000)
    ++ "." ++ pad3 (fix3Thousandths q % 1000)

/-- `InfoMessage.get_message`: renders `MESSAGE.format(**asdict(self))`,
with the source's Russian labels and `.3f` on the four numeric fields. -/
def InfoMessage.get_message (msg : InfoMessage) : String :=
  "Тип тренировки: " ++ msg.training_type
    ++ "; Длительность: " ++ formatFix3 msg.duration
    ++ " ч.; Дистанция: " ++ formatFix3 msg.distance
    ++ " км; Ср. скорость: " ++ formatFix3 msg.speed
    ++ " км/ч; Потрачено ккал: " ++ formatFix3 msg.calories ++ "."

/-- Modelled from the spec: the English output template stated in §6 of the
spec (`Activity type: {label}; Duration: {h:.3f} h.; Distance: {d:.3f} km;
Mean speed: {s:.3f} km/h; Calories burned: {c:.3f}.`), to be compared with
the template the source actually uses. -/
def specEnglishMessage (msg : InfoMessage) : String :=
  "Activity type: " ++ msg.training_type
    ++ "; Duration: " ++ formatFix3 msg.duration
    ++ " h.; Distance: " ++ formatFix3 msg.distance
    ++ " km; Mean speed: " ++ formatFix3 msg.speed
    ++ " km/h; Calories burned: " ++ formatFix3 msg.calories ++ "."

/-- A string that ends in a decimal point followed by exactly three digit
characters: the shape of a `.3f`-formatted number. -/
def hasThreeDecimals (s : String) : Prop :=
  ∃ t u : String, s = t ++ "." ++ u ∧ u.length = 3 ∧ ∀ c ∈ u.data, c.isDigit

/-- Unfolding: a Running record's distance is `action * 0.65 / 1000`. -/
theorem running_distance_eq (a d w : ℚ) :
    (Training.running a d w).get_distance = a * 0.65 / 1000 := by
  simp [Training.get_distance, Training.action, Training.LEN_STEP, M_IN_KM]

/-- Unfolding: a SportsWalking record's distance is `action * 0.65 / 1000`. -/
theorem walking_distance_eq (a d w h : ℚ) :
    (Training.sportsWalking a d w h).get_distance = a * 0.65 / 1000 := by
  simp [Training.get_distance, Training.action, Training.LEN_STEP, M_IN_KM]

/-- Unfolding: a Swimming record's distance is `action * 1.38 / 1000`. -/
theorem swimming_distance_eq (a d w l c : ℚ) :
    (Training.swimming a d w l c).get_distance = a * 1.38 / 1000 := by
  simp [Training.get_distance, Training.action, Training.LEN_STEP, M_IN_KM]

/-- Unfolding: a Running record's mean speed (nonzero duration). -/
theorem running_speed_eq (a d w : ℚ) (hd : d ≠ 0) :
    (Training.running a d w).get_mean_speed = some (a * 0.65 / 1000 / d) := by
  simp [Training.get_mean_speed, Training.duration, hd, running_distance_eq]

/-- Unfolding: a SportsWalking record's mean speed (nonzero duration). -/
theorem walking_speed_eq (a d w h : ℚ) (hd : d ≠ 0) :
    (Training.sportsWalking a d w h).get_mean_speed
      = some (a * 0.65 / 1000 / d) := by
  simp [Training.get_mean_speed, Training.duration, hd, walking_distance_eq]

/-- Unfolding: a Swimming record's mean speed (nonzero duration). -/
theorem swimming_speed_eq (a d w l c : ℚ) (hd : d ≠ 0) :
    (Training.swimming a d w l c).get_mean_speed
      = some (l * c / 1000 / d) := by
  simp [Training.get_mean_speed, M_IN_KM, hd]

/-- Unfolding: a Running record's calories (nonzero duration). -/
theorem running_cal_eq (a d w : ℚ) (hd : d ≠ 0) :
    (Training.running a d w).get_spent_calories
      = some ((18 * (a * 0.65 / 1000 / d) - 20) * w / 1000 * d * 60) := by
  simp [Training.get_spent_calories, running_speed_eq a d w hd,
        RATE_CALORIE_RUN_LEFT, RATE_CALORIE_RUN_RIGHT, M_IN_KM, MINUTES_IN_HOUR]

/-- Unfolding: a SportsWalking record's calories (nonzero duration and
height). -/
theorem walking_cal_eq (a d w h : ℚ) (hd : d ≠ 0) (hh : h ≠ 0) :
    (Training.sportsWalking a d w h).get_spent_calories
      = some ((⌊(a * 0.65 / 1000 / d) ^ 2 / h⌋ : ℚ) * 0.029 * w
        + 0.035 * w * d * 60) := by
  simp [Training.get_spent_calories, walking_speed_eq a d w h hd, hh,
        RATE_CALORIE_WALK_LEFT, RATE_CALORIE_WALK_RIGHT, MINUTES_IN_HOUR]

/-- Unfolding: a Swimming record's calories (nonzero duration). -/
theorem swimming_cal_eq (a d w l c : ℚ) (hd : d ≠ 0) :
    (Training.swimming a d w l c).get_spent_calories
      = some ((l * c / 1000 / d + 1.1) * 2 * w) := by
  simp [Training.get_spent_calories, swimming_speed_eq a d w l c hd,
        RATE_CALORIE_SWIM_LEFT, RATE_CALORIE_SWIM_RIGHT]

/-- The digit characters produced by `digitChar` satisfy `Char.isDigit`. -/
theorem digitChar_isDigit (n : ℕ) : (digitChar n).isDigit = true := by
  show (Char.ofNat (48 + n % 10)).isDigit = true
  generalize hk : n % 10 = k
  have h : k < 10 := hk ▸ Nat.mod_lt _ (by norm_num)
  interval_cases k <;> decide

/-- `fix3Thousandths` is the nearest-thousandths rounding of the
magnitude: it agrees with `round (|q| * 1000)`. -/
theorem fix3Thousandths_eq_round (q : ℚ) :
    (fix3Thousandths q : ℤ) = round (|q| * 1000) := by
  have hden : (0 : ℚ) < (q.den : ℚ) := by exact_mod_cast q.pos
  have habs : |q| = (q.num.natAbs : ℚ) / (q.den : ℚ) := by
    conv_lhs => rw [← Rat.num_div_den q]
    rw [abs_div, Int.cast_natAbs, abs_of_pos hden, Int.cast_abs]
  have key : |q| * 1000 + 1 / 2
      = ((2000 * q.num.natAbs + q.den : ℕ) : ℚ) / ((2 * q.den : ℕ) : ℚ) := by
    rw [habs]
    push_cast
    field_simp
    ring
  rw [round_eq, key, ← Int.natCast_floor_eq_floor (by positivity),
      Nat.floor_div_eq_div]
  rfl

/-- Every `formatFix3` rendering ends in a point and exactly three digit
characters. -/
theorem hasThreeDecimals_formatFix3 (q : ℚ) :
    hasThreeDecimals (formatFix3 q) := by
  refine ⟨(if q.num < 0 then "-" else "")
      ++ toString (fix3Thousandths q / 1000),
    pad3 (fix3Thousandths q % 1000), rfl, rfl, ?_⟩
  intro c hc
  have hdata : (pad3 (fix3Thousandths q % 1000)).data
      = [digitChar (fix3Thousandths q % 1000 / 100),
         digitChar (fix3Thousandths q % 1000 / 10),
         digitChar (fix3Thousandths q % 1000)] := rfl
  rw [hdata] at hc
  simp only [List.mem_cons, List.not_mem_nil, or_false] at hc
  rcases hc with h | h | h <;> subst h <;> exact digitChar_isDigit _

/-- C5: for every Running record with positive duration, the computed
calories equal `(18 * meanSpeedKmh - 20) * weightKg / 1000 * durationHours
* 60`, where `meanSpeedKmh = (actionCount * 0.65 / 1000) / durationHours`. -/
theorem running_calories_formula (a d w : ℚ) (hd : 0 < d) :
    (Training.running a d w).get_spent_calories
      = some ((18 * (a * 0.65 / 1000 / d) - 20) * w / 1000 * d * 60) :=
  running_cal_eq a d w hd.ne'

/-- Witness for C5 at the sample Running input (15000, 1, 75). -/
theorem running_calories_formula_witness :
    (Training.running 15000 1 75).get_spent_calories
      = some ((18 * (15000 * 0.65 / 1000 / 1) - 20) * 75 / 1000 * 1 * 60) :=
  running_calories_formula 15000 1 75 (by norm_num)

/-- C6: for every SportsWalking record with positive duration and height,
the computed calories equal `floor(meanSpeedKmh ^ 2 / heightCm) * 0.029 *
weightKg + 0.035 * weightKg * durationHours * 60`, the inner division
taken as floor division. -/
theorem walking_calories_formula (a d w h : ℚ) (hd : 0 < d) (hh : 0 < h) :
    (Training.sportsWalking a d w h).get_spent_calories
      = some ((⌊(a * 0.65 / 1000 / d) ^ 2 / h⌋ : ℚ) * 0.029 * w
        + 0.035 * w * d * 60) :=
  walking_cal_eq a d w h hd.ne' hh.ne'

/-- Witness for C6 at the sample Walking input (9000, 1, 75, 180). -/
theorem walking_calories_formula_witness :
    (Training.sportsWalking 9000 1 75 180).get_spent_calories
      = some ((⌊((9000 : ℚ) * 0.65 / 1000 / 1) ^ 2 / 180⌋ : ℚ) * 0.029 * 75
        + 0.035 * 75 * 1 * 60) :=
  walking_calories_formula 9000 1 75 180 (by norm_num) (by norm_num)

/-- C7: for every Swimming record with positive duration, the computed
mean speed equals `(poolLengthM * poolLapsCount) / 1000 / durationHours`,
the pool-geometry override of the base distance-over-duration rule. -/
theorem swimming_mean_speed_formula (a d w l c : ℚ) (hd : 0 < d) :
    (Training.swimming a d w l c).get_mean_speed
      = some (l * c / 1000 / d) :=
  swimming_speed_eq a d w l c hd.ne'

/-- Witness for C7 at the sample Swimming input (720, 1, 80, 25, 40). -/
theorem swimming_mean_speed_formula_witness :
    (Training.swimming 720 1 80 25 40).get_mean_speed
      = some (25 * 40 / 1000 / 1) :=
  swimming_mean_speed_formula 720 1 80 25 40 (by norm_num)

/-- C8 counterexample: at the Running input (15000, 1, 75) the computed
calories are 699.75, not the 655.3125 the claim asserts. -/
theorem running_sample_calories_ne_spec :
    (Training.running 15000 1 75).get_spent_calories = some 699.75
      ∧ (699.75 : ℚ) ≠ 655.3125 := by
  constructor
  · rw [running_cal_eq 15000 1 75 (by norm_num)]
    norm_num
  · norm_num

/-- C8 amended: at the Running input (15000, 1, 75) the distance is
9.75 km, the mean speed 9.75 km/h, and the calories
`(18 * 9.75 - 20) * 75 / 1000 * 1 * 60 = 699.75`. -/
theorem running_sample_values :
    (Training.running 15000 1 75).get_distance = 9.75
      ∧ (Training.running 15000 1 75).get_mean_speed = some 9.75
      ∧ (Training.running 15000 1 75).get_spent_calories
          = some ((18 * 9.75 - 20) * 75 / 1000 * 1 * 60) := by
  refine ⟨?_, ?_, ?_⟩
  · rw [running_distance_eq]; norm_num
  · rw [running_speed_eq 15000 1 75 (by norm_num)]; norm_num
  · rw [running_cal_eq 15000 1 75 (by norm_num)]; norm_num

/-- C1 counterexample: the valid Running input (100, 1, 75) — positive
duration and weight, non-negative action count — yields negative
calories, −84.735. -/
theorem running_calories_negative_example :
    (Training.running 100 1 75).get_spent_calories = some (-84.735)
      ∧ (-84.735 : ℚ) < 0 := by
  constructor
  · rw [running_cal_eq 100 1 75 (by norm_num)]
    norm_num
  · norm_num

/-- C1 amended: for valid inputs (positive duration, weight and height,
non-negative action count and pool parameters) the distance and the mean
speed are non-negative for all three variants, and the calories are
non-negative for SportsWalking and Swimming; Running calories can be
negative when the mean speed is below 20/18 km/h. -/
theorem valid_outputs_nonneg (a d w h l c : ℚ) (hd : 0 < d) (hw : 0 < w)
    (ha : 0 ≤ a) (hh : 0 < h) (hl : 0 ≤ l) (hc : 0 ≤ c) :
    (0 ≤ (Training.running a d w).get_distance
      ∧ ∃ s, (Training.running a d w).get_mean_speed = some s ∧ 0 ≤ s)
    ∧ (0 ≤ (Training.sportsWalking a d w h).get_distance
      ∧ (∃ s, (Training.sportsWalking a d w h).get_mean_speed = some s
          ∧ 0 ≤ s)
      ∧ ∃ k, (Training.sportsWalking a d w h).get_spent_calories = some k
          ∧ 0 ≤ k)
    ∧ (0 ≤ (Training.swimming a d w l c).get_distance
      ∧ (∃ s, (Training.swimming a d w l c).get_mean_speed = some s ∧ 0 ≤ s)
      ∧ ∃ k, (Training.swimming a d w l c).get_spent_calories = some k
          ∧ 0 ≤ k) := by
  have hstep : (0 : ℚ) ≤ a * 0.65 / 1000 / d := by positivity
  have hfloor : (0 : ℚ) ≤ (⌊(a * 0.65 / 1000 / d) ^ 2 / h⌋ : ℚ) := by
    have : (0 : ℚ) ≤ (a * 0.65 / 1000 / d) ^ 2 / h := by positivity
    exact_mod_cast Int.floor_nonneg.mpr this
  have hswim : (0 : ℚ) ≤ l * c / 1000 / d := by positivity
  refine ⟨⟨?_, ?_⟩, ⟨?_, ?_, ?_⟩, ⟨?_, ?_, ?_⟩⟩
  · rw [running_distance_eq]; positivity
  · exact ⟨_, running_speed_eq a d w hd.ne', hstep⟩
  · rw [walking_distance_eq]; positivity
  · exact ⟨_, walking_speed_eq a d w h hd.ne', hstep⟩
  · refine ⟨_, walking_cal_eq a d w h hd.ne' hh.ne', ?_⟩
    have h1 : (0 : ℚ) ≤ (⌊(a * 0.65 / 1000 / d) ^ 2 / h⌋ : ℚ) * 0.029 * w :=
      mul_nonneg (mul_nonneg hfloor (by norm_num)) hw.le
    have h2 : (0 : ℚ) ≤ 0.035 * w * d * 60 := by positivity
    exact add_nonneg h1 h2
  · rw [swimming_distance_eq]; positivity
  · exact ⟨_, swimming_speed_eq a d w l c hd.ne', hswim⟩
  · refine ⟨_, swimming_cal_eq a d w l c hd.ne', ?_⟩
    have : (0 : ℚ) ≤ l * c / 1000 / d + 1.1 := by positivity
    positivity

/-- Witness for C1's amended statement at the three sample inputs'
parameter values (15000, 1, 75, 180, 25, 40). -/
theorem valid_outputs_nonneg_witness :
    (0 ≤ (Training.running 15000 1 75).get_distance
      ∧ ∃ s, (Training.running 15000 1 75).get_mean_speed = some s ∧ 0 ≤ s)
    ∧ (0 ≤ (Training.sportsWalking 15000 1 75 180).get_distance
      ∧ (∃ s, (Training.sportsWalking 15000 1 75 180).get_mean_speed = some s
          ∧ 0 ≤ s)
      ∧ ∃ k, (Training.sportsWalking 15000 1 75 180).get_spent_calories
          = some k ∧ 0 ≤ k)
    ∧ (0 ≤ (Training.swimming 15000 1 75 25 40).get_distance
      ∧ (∃ s, (Training.swimming 15000 1 75 25 40).get_mean_speed = some s
          ∧ 0 ≤ s)
      ∧ ∃ k, (Training.swimming 15000 1 75 25 40).get_spent_calories
          = some k ∧ 0 ≤ k) :=
  valid_outputs_nonneg 15000 1 75 180 25 40 (by norm_num) (by norm_num)
    (by norm_num) (by norm_num) (by norm_num) (by norm_num)

/-- C2: for every recognized activity code, a parameter list whose length
differs from the resolved variant's arity (3 for Running, 4 for
SportsWalking, 5 for Swimming) makes the factory fail with the
parameter-count error, constructing no record. -/
theorem read_package_arity_mismatch (data : List ℚ) :
    (data.length ≠ 3
      → read_package "RUN" data = .error .invalidParameterCount)
    ∧ (data.length ≠ 4
      → read_package "WLK" data = .error .invalidParameterCount)
    ∧ (data.length ≠ 5
      → read_package "SWM" data = .error .invalidParameterCount) := by
  obtain _ | ⟨a, _ | ⟨b, _ | ⟨c, _ | ⟨d, _ | ⟨e, _ | ⟨f, rest⟩⟩⟩⟩⟩⟩ := data <;>
    refine ⟨fun h3 => ?_, fun h4 => ?_, fun h5 => ?_⟩ <;>
    simp_all [read_package]

/-- Witness for C2: too-short, too-long and empty parameter lists are all
rejected with the parameter-count error. -/
theorem read_package_arity_mismatch_witness :
    read_package "RUN" [720, 1] = .error .invalidParameterCount
      ∧ read_package "WLK" [720, 1, 80, 25, 40]
          = .error .invalidParameterCount
      ∧ read_package "SWM" [] = .error .invalidParameterCount :=
  ⟨(read_package_arity_mismatch [720, 1]).1 (by simp),
   (read_package_arity_mismatch [720, 1, 80, 25, 40]).2.1 (by simp),
   (read_package_arity_mismatch []).2.2 (by simp)⟩

/-- C9: every activity code outside {SWM, RUN, WLK} makes the factory fail
with the activity-code error, constructing no record. -/
theorem read_package_unknown_code (code : String) (data : List ℚ)
    (h1 : code ≠ "SWM") (h2 : code ≠ "RUN") (h3 : code ≠ "WLK") :
    read_package code data = .error .invalidActivityCode := by
  simp [read_package, h1, h2, h3]

/-- Witness for C9 at the spec's example code XYZ. -/
theorem read_package_unknown_code_witness :
    read_package "XYZ" [720, 1, 80] = .error .invalidActivityCode :=
  read_package_unknown_code "XYZ" [720, 1, 80] (by decide) (by decide)
    (by decide)

/-- C3 counterexample: a Running record with zero duration is constructed
without any rejection, and mean-speed computation then reaches the
division-by-zero branch. -/
theorem zero_duration_not_rejected :
    read_package "RUN" [15000, 0, 75] = .ok (.running 15000 0 75)
      ∧ (Training.running 15000 0 75).get_mean_speed = none := by
  constructor
  · rfl
  · simp [Training.get_mean_speed, Training.duration]

/-- C3 amended: construction performs no value validation — every numeric
triple yields a constructed Running record, including zero duration, and
the division-by-zero branch inside mean-speed computation is reachable on
such a record. -/
theorem construction_unvalidated (a d w : ℚ) :
    read_package "RUN" [a, d, w] = .ok (.running a d w)
      ∧ (d = 0 → (Training.running a d w).get_mean_speed = none) := by
  refine ⟨rfl, fun hd => ?_⟩
  simp [Training.get_mean_speed, Training.duration, hd]

/-- Witness for C3's amended statement at the zero-duration input. -/
theorem construction_unvalidated_witness :
    read_package "RUN" [15000, 0, 75] = .ok (.running 15000 0 75)
      ∧ ((0 : ℚ) = 0
          → (Training.running 15000 0 75).get_mean_speed = none) :=
  construction_unvalidated 15000 0 75

/-- Helper: `show_training_info` on computed speed and calories. -/
theorem show_training_info_eq (t : Training) (s k : ℚ)
    (hs : t.get_mean_speed = some s) (hk : t.get_spent_calories = some k) :
    t.show_training_info
      = some { training_type := t.className, duration := t.duration,
               distance := t.get_distance, speed := s, calories := k } := by
  rw [Training.show_training_info, hs, hk]

/-- C10: every summary's activity label is the variant's runtime class
name, one of Swimming, Running, SportsWalking. -/
theorem training_type_is_class_name (t : Training) (msg : InfoMessage)
    (hmsg : t.show_training_info = some msg) :
    msg.training_type = t.className
      ∧ t.className ∈ ["Swimming", "Running", "SportsWalking"] := by
  constructor
  · rw [Training.show_training_info] at hmsg
    rcases hs : t.get_mean_speed with _ | s <;>
      rcases hk : t.get_spent_calories with _ | k <;>
        rw [hs, hk] at hmsg <;> simp at hmsg
    rw [← hmsg]
  · cases t <;> simp [Training.className]

/-- Witness for C10 at the sample Running input. -/
theorem training_type_is_class_name_witness :
    ({ training_type := "Running", duration := 1, distance := 9.75,
       speed := 9.75, calories := 699.75 } : InfoMessage).training_type
        = (Training.running 15000 1 75).className
      ∧ (Training.running 15000 1 75).className
          ∈ ["Swimming", "Running", "SportsWalking"] :=
  training_type_is_class_name (Training.running 15000 1 75) _ (by
    have hs := running_speed_eq 15000 1 75 (by norm_num)
    have hk := running_cal_eq 15000 1 75 (by norm_num)
    norm_num at hs hk
    rw [show_training_info_eq _ _ _ hs hk]
    norm_num [Training.className, Training.duration, running_distance_eq])

/-- C4 counterexample: the rendered message does not follow the claim's
English template; the labels are the source's Russian ones. -/
theorem message_not_english_template :
    InfoMessage.get_message
        { training_type := "Running", duration := 1, distance := 1,
          speed := 1, calories := 1 }
      ≠ specEnglishMessage
        { training_type := "Running", duration := 1, distance := 1,
          speed := 1, calories := 1 } := by
  decide

/-- C4 amended: every rendered summary is one line of the fixed template
with the source's labels (Тип тренировки / Длительность / Дистанция /
Ср. скорость / Потрачено ккал), the four numeric fields carrying exactly
three decimal digits regardless of magnitude. -/
theorem message_fixed_template (msg : InfoMessage) :
    ∃ s1 s2 s3 s4 : String,
      msg.get_message
        = "Тип тренировки: " ++ msg.training_type ++ "; Длительность: "
          ++ s1 ++ " ч.; Дистанция: " ++ s2 ++ " км; Ср. скорость: "
          ++ s3 ++ " км/ч; Потрачено ккал: " ++ s4 ++ "."
      ∧ hasThreeDecimals s1 ∧ hasThreeDecimals s2 ∧ hasThreeDecimals s3
      ∧ hasThreeDecimals s4 :=
  ⟨_, _, _, _, rfl, hasThreeDecimals_formatFix3 _,
    hasThreeDecimals_formatFix3 _, hasThreeDecimals_formatFix3 _,
    hasThreeDecimals_formatFix3 _⟩
